import Mathlib

/-
Verification development for the conversation sync client of the chat-bot
component (src/app/chat-bot/frontend/ChatBotUI.tsx).

The component's React state is modelled as an explicit record `ChatState`;
each event handler becomes a pure function from the pre-state (plus the
ambient session token, a clock value standing for Date.now(), and the
outcome of the network round trip) to the post-state together with the
list of outbound network calls it issued.  Network call descriptors record
the endpoint and the timeout wrapper applied (none for a plain fetch).
Stale-closure reads in the original handlers (the `messages` and
`currentConversationId` variables captured at render time) are modelled by
reading from the pre-state rather than the updated state, exactly as the
JavaScript closures do.
-/

namespace ChatBot

/-- JS String.prototype.trim, modelled on the character list: drop leading
and trailing whitespace. -/
def jsTrim (s : String) : String :=
  ⟨((s.data.dropWhile Char.isWhitespace).reverse.dropWhile Char.isWhitespace).reverse⟩

/-- JS truthiness of a nullable string value: null/undefined and the empty
string are falsy, every other string is truthy. -/
def truthyStr (o : Option String) : Bool :=
  match o with
  | none => false
  | some s => s != ""

/-- Fixed Platform.OS value for this development (the handlers only splice
it into diagnostic text; no claim depends on which platform is chosen). -/
def platformOS : String := "web"

/-- FETCH_TIMEOUT from the source: 30 seconds, in milliseconds. -/
def FETCH_TIMEOUT : Nat := 30000

inductive Sender where
  | user
  | bot
  deriving DecidableEq, Repr

/-- A message in the local message list.  `id` is `none` when the JS value
would be `undefined`. -/
structure Message where
  id : Option String
  text : String
  sender : Sender
  timestamp : String
  deriving DecidableEq, Repr

/-- A conversation summary, as held in the local conversation list. -/
structure Conversation where
  id : String
  title : String
  deriving DecidableEq, Repr

/-- The component state: the useState hooks of ChatBotUI. -/
structure ChatState where
  messages : List Message
  inputText : String
  isLoading : Bool
  isLoadingConversations : Bool
  conversations : List Conversation
  currentConversationId : Option String
  deriving DecidableEq, Repr

/-- The endpoint an outbound call targets, with the request-body
conversation field for the chat POST. -/
inductive Endpoint where
  | conversations
  | conversationMessages (conversationId : String)
  | conversationDelete (conversationId : String)
  | chat (bodyConversationId : Option String)
  deriving DecidableEq, Repr

/-- An outbound network call: its endpoint and the timeout wrapper applied
(`none` when the handler used plain fetch with no Promise.race guard). -/
structure FetchCall where
  endpoint : Endpoint
  timeoutMs : Option Nat
  deriving DecidableEq, Repr

/-- fetchWithTimeout from the source: a fetch raced against a rejection
timer of the given number of milliseconds. -/
def fetchWithTimeout (e : Endpoint) (timeout : Nat) : FetchCall :=
  { endpoint := e, timeoutMs := some timeout }

/-- A plain fetch call with no timeout wrapper. -/
def fetchNoTimeout (e : Endpoint) : FetchCall :=
  { endpoint := e, timeoutMs := none }

/-- The rejection message produced when the timeout timer fires. -/
def timeoutErrorText : String := "Network request timed out"

/-- The message of the Error thrown on a non-ok response. -/
def serverErrorText (status : Nat) (body : String) : String :=
  "Server error: " ++ toString status ++ " - " ++ body

/-- Number of conversation-list refreshes among a list of outbound calls:
each GET /conversations call is one refresh. -/
def refreshCount (calls : List FetchCall) : Nat :=
  calls.countP (fun c => c.endpoint == Endpoint.conversations)

/-- Outcome of the GET /conversations round trip. -/
inductive ListOutcome where
  | fetchError (message : String)
  | httpError (status : Nat) (body : String)
  | success (convs : List Conversation)
  deriving DecidableEq, Repr

/-- The diagnostic message fetchConversations appends on failure. -/
def diagnosticMsg (now : Nat) : Message :=
  { id := some ("diagnostic-" ++ toString now)
  , text := "🔧 Diagnostic: Failed to load conversations on " ++ platformOS ++
      ". Check console for details."
  , sender := .bot
  , timestamp := toString now }

/-- fetchConversations: list the user's conversations.  Returns the
post-state and the outbound calls issued. -/
def fetchConversations (session : Option String) (now : Nat)
    (outcome : ListOutcome) (s : ChatState) : ChatState × List FetchCall :=
  match session with
  | none => (s, [])
  | some _ =>
    let s1 := { s with isLoadingConversations := true }
    let call := fetchWithTimeout Endpoint.conversations FETCH_TIMEOUT
    let s2 :=
      match outcome with
      | .success data =>
        { s1 with conversations := data.map (fun (c : Conversation) =>
            { id := c.id, title := c.title }) }
      | .httpError _ _ => { s1 with messages := s1.messages ++ [diagnosticMsg now] }
      | .fetchError _ => { s1 with messages := s1.messages ++ [diagnosticMsg now] }
    ({ s2 with isLoadingConversations := false }, [call])

/-- A raw message object of the GET messages response body. -/
structure LoadedMsg where
  id : String
  content : String
  role : String
  created_at : String
  deriving DecidableEq, Repr

/-- Parsed body of the GET messages response; `messages` is `none` when the
field is absent or null. -/
structure LoadData where
  messages : Option (List LoadedMsg)
  deriving DecidableEq, Repr

/-- Outcome of the GET /conversations/{id}/messages round trip.  `success
none` models a 2xx response whose JSON body is null. -/
inductive LoadOutcome where
  | fetchError (message : String)
  | httpError (status : Nat) (body : String)
  | success (data : Option LoadData)
  deriving DecidableEq, Repr

/-- The pre-fetch effects of loadConversation: mark loading, clear the
message list, and mark the requested identifier current. -/
def loadDispatch (conversationId : String) (s : ChatState) : ChatState :=
  { s with isLoading := true, messages := [], currentConversationId := some conversationId }

/-- Error message for a non-ok load response. -/
def loadErrorStatusMsg (now : Nat) (status : Nat) : Message :=
  { id := some ("error-" ++ toString now)
  , text := "Error loading conversation: " ++ toString status ++ ". Platform: " ++ platformOS
  , sender := .bot
  , timestamp := toString now }

/-- Error message for a load response not in the expected format. -/
def loadFormatErrorMsg (now : Nat) : Message :=
  { id := some ("error-format-" ++ toString now)
  , text := "Failed to parse conversation messages."
  , sender := .bot
  , timestamp := toString now }

/-- Error message appended by loadConversation's catch handler. -/
def loadFetchErrorMsg (now : Nat) : Message :=
  { id := some ("error-fetch-" ++ toString now)
  , text := "An error occurred while fetching conversation. Platform: " ++ platformOS
  , sender := .bot
  , timestamp := toString now }

/-- loadConversation: fetch the full message history of one conversation.
The catch handler's `messages.length === 0` test reads the render-time
closure value, i.e. the pre-call message list of `s`. -/
def loadConversation (conversationId : String) (session : Option String) (now : Nat)
    (outcome : LoadOutcome) (s : ChatState) : ChatState × List FetchCall :=
  match session with
  | none => (s, [])
  | some _ =>
    let s1 := loadDispatch conversationId s
    let call := fetchNoTimeout (Endpoint.conversationMessages conversationId)
    let staleEmpty := s.messages.isEmpty
    let s2 :=
      match outcome with
      | .httpError status _ =>
        let sErr := { s1 with messages := [loadErrorStatusMsg now status] }
        if staleEmpty then { sErr with messages := [loadFetchErrorMsg now] } else sErr
      | .fetchError _ =>
        if staleEmpty then { s1 with messages := [loadFetchErrorMsg now] } else s1
      | .success data =>
        match data with
        | some d =>
          match d.messages with
          | some msgs =>
            { s1 with messages := msgs.map (fun (m : LoadedMsg) =>
                { id := some m.id
                , text := m.content
                , sender := if m.role = "user" then Sender.user else Sender.bot
                , timestamp := m.created_at }) }
          | none => { s1 with messages := [loadFormatErrorMsg now] }
        | none => { s1 with messages := [loadFormatErrorMsg now] }
    ({ s2 with isLoading := false }, [call])

/-- handleNewChat: purely local reset to the unidentified/empty state. -/
def handleNewChat (s : ChatState) : ChatState :=
  { s with currentConversationId := none, messages := [], inputText := "" }

/-- Outcome of the DELETE /conversations/{id} round trip. -/
inductive DeleteOutcome where
  | fetchError (message : String)
  | httpError (status : Nat) (body : String)
  | success
  deriving DecidableEq, Repr

/-- Error message for a non-ok delete response. -/
def deleteErrorStatusMsg (now : Nat) (status : Nat) : Message :=
  { id := some ("error-delete-" ++ toString now)
  , text := "Error deleting conversation: " ++ toString status ++ ". Please try again."
  , sender := .bot
  , timestamp := toString now }

/-- Error message appended by handleDeleteConversation's catch handler. -/
def deleteFetchErrorMsg (now : Nat) : Message :=
  { id := some ("error-delete-fetch-" ++ toString now)
  , text := "An error occurred while deleting the conversation."
  , sender := .bot
  , timestamp := toString now }

/-- The `messages.find(m => m.id.startsWith('error-delete'))` test of the
delete catch handler (an undefined id is read as the empty string). -/
def hasErrorDeleteMsg (msgs : List Message) : Bool :=
  msgs.any (fun m => "error-delete".data.isPrefixOf (m.id.getD "").data)

/-- The pre-fetch effect of handleDeleteConversation: mark loading. -/
def deleteDispatch (s : ChatState) : ChatState :=
  { s with isLoading := true }

/-- handleDeleteConversation: delete one conversation, then re-list on
success; the catch handler's `messages` read is the render-time closure
value `s.messages`, as is the `currentConversationId` comparison. -/
def handleDeleteConversation (conversationId : String) (session : Option String)
    (now : Nat) (outcome : DeleteOutcome) (listOutcome : ListOutcome)
    (s : ChatState) : ChatState × List FetchCall :=
  match session with
  | none => (s, [])
  | some tok =>
    let s1 := deleteDispatch s
    let call := fetchNoTimeout (Endpoint.conversationDelete conversationId)
    let res :=
      match outcome with
      | .httpError status _ =>
        let sErr := { s1 with messages := s1.messages ++ [deleteErrorStatusMsg now status] }
        if hasErrorDeleteMsg s.messages then (sErr, ([] : List FetchCall))
        else ({ sErr with messages := sErr.messages ++ [deleteFetchErrorMsg now] }, [])
      | .fetchError _ =>
        if hasErrorDeleteMsg s.messages then (s1, ([] : List FetchCall))
        else ({ s1 with messages := s1.messages ++ [deleteFetchErrorMsg now] }, [])
      | .success =>
        let ref := fetchConversations (some tok) now listOutcome s1
        if s.currentConversationId = some conversationId
        then (handleNewChat ref.1, ref.2)
        else ref
    ({ res.1 with isLoading := false }, call :: res.2)

/-- The assistant part of the POST /chat response body.  Each field is
`none` when absent/undefined in the JSON. -/
structure BotResponse where
  id : Option String
  content : Option String
  created_at : Option String
  deriving DecidableEq, Repr

/-- Parsed body of the POST /chat response. -/
structure ChatData where
  conversation_id : Option String
  response : Option BotResponse
  deriving DecidableEq, Repr

/-- Outcome of the POST /chat round trip.  `success none` models a 2xx
response whose JSON body is null. -/
inductive SendOutcome where
  | fetchError (message : String)
  | httpError (status : Nat) (body : String)
  | success (data : Option ChatData)
  deriving DecidableEq, Repr

/-- The truthiness guard of the send success handler:
`data && data.response && data.response.content && data.conversation_id`. -/
def chatGuard (data : Option ChatData) : Bool :=
  match data with
  | none => false
  | some d =>
    match d.response with
    | none => false
    | some r => truthyStr r.content && truthyStr d.conversation_id

/-- The message appended when send is invoked with no active session. -/
def authErrorMsg (now : Nat) : Message :=
  { id := some (toString now)
  , text := "Authentication error. Please log in again."
  , sender := .bot
  , timestamp := toString now }

/-- The optimistically appended user message. -/
def userMsg (now : Nat) (text : String) : Message :=
  { id := some (toString now)
  , text := text
  , sender := .user
  , timestamp := toString now }

/-- The pre-fetch effects of handleSendMessage once its guards pass:
append the user message, clear the input box, mark loading. -/
def sendDispatch (now : Nat) (s : ChatState) : ChatState :=
  { s with messages := s.messages ++ [userMsg now s.inputText]
         , inputText := ""
         , isLoading := true }

/-- Text of the message appended by the send catch handler (the same for a
non-ok status, a timeout, and a transport error). -/
def sendErrorText : String :=
  "Error sending message on " ++ platformOS ++ ". Check console for details."

/-- The message appended by the send catch handler. -/
def sendErrorMsg (now : Nat) : Message :=
  { id := some (toString (now + 1))
  , text := sendErrorText
  , sender := .bot
  , timestamp := toString now }

/-- The message appended when a 2xx chat response fails the field guard. -/
def formatErrorMsg (now : Nat) : Message :=
  { id := some (toString (now + 2))
  , text := "Error: Bot response format is unexpected."
  , sender := .bot
  , timestamp := toString now }

/-- The bot message built from the response object:
`id: data.response.id` (possibly undefined), content, and
`created_at ? new Date(created_at) : new Date()`. -/
def botMsgOfResponse (now : Nat) (r : BotResponse) : Message :=
  { id := r.id
  , text := r.content.getD ""
  , sender := .bot
  , timestamp :=
      match r.created_at with
      | some c => if c != "" then c else toString now
      | none => toString now }

/-- The continuation of handleSendMessage after the POST resolves.  `cur`
is the render-time closure value of currentConversationId (equal to the
pre-state's, since dispatch does not change it). -/
def sendComplete (session : Option String) (now : Nat) (outcome : SendOutcome)
    (listOutcome : ListOutcome) (cur : Option String) (s1 : ChatState) :
    ChatState × List FetchCall :=
  match outcome with
  | .httpError _ _ => ({ s1 with messages := s1.messages ++ [sendErrorMsg now] }, [])
  | .fetchError _ => ({ s1 with messages := s1.messages ++ [sendErrorMsg now] }, [])
  | .success data =>
    match data with
    | none => ({ s1 with messages := s1.messages ++ [formatErrorMsg now] }, [])
    | some d =>
      match d.response with
      | none => ({ s1 with messages := s1.messages ++ [formatErrorMsg now] }, [])
      | some r =>
        if truthyStr r.content && truthyStr d.conversation_id then
          let s2 := { s1 with messages := s1.messages ++ [botMsgOfResponse now r] }
          if truthyStr cur = false ∨ cur ≠ d.conversation_id then
            let s3 := { s2 with currentConversationId := d.conversation_id }
            if truthyStr cur = false then
              fetchConversations session now listOutcome s3
            else (s3, [])
          else (s2, [])
        else ({ s1 with messages := s1.messages ++ [formatErrorMsg now] }, [])

/-- handleSendMessage: guard on blank input and missing session, then
optimistic dispatch, the POST /chat call, the response continuation, and
the finally step resetting the loading flag. -/
def handleSendMessage (session : Option String) (now : Nat) (outcome : SendOutcome)
    (listOutcome : ListOutcome) (s : ChatState) : ChatState × List FetchCall :=
  if jsTrim s.inputText = "" then (s, [])
  else
    match session with
    | none => ({ s with messages := s.messages ++ [authErrorMsg now] }, [])
    | some _ =>
      let s1 := sendDispatch now s
      let bodyConvId := if truthyStr s.currentConversationId then s.currentConversationId else none
      let call := fetchWithTimeout (Endpoint.chat bodyConvId) FETCH_TIMEOUT
      let res := sendComplete session now outcome listOutcome s.currentConversationId s1
      ({ res.1 with isLoading := false }, call :: res.2)

/-- Sample component state used by witnesses and counterexamples. -/
def initialState : ChatState :=
  { messages := [], inputText := "hello", isLoading := false
  , isLoadingConversations := false, conversations := [], currentConversationId := none }

/-- The timeout wrapper each endpoint's call actually receives in the
source: fetchWithTimeout for the list and chat calls, plain fetch for the
load and delete calls. -/
def expectedTimeout : Endpoint → Option Nat
  | .conversations => some FETCH_TIMEOUT
  | .chat _ => some FETCH_TIMEOUT
  | .conversationMessages _ => none
  | .conversationDelete _ => none

/-! Helper lemmas shared by the claim theorems. -/

theorem jsTrim_eq_empty (s : String) (h : s.data.all Char.isWhitespace = true) :
    jsTrim s = "" := by
  unfold jsTrim
  have h1 : s.data.dropWhile Char.isWhitespace = [] := by
    rw [List.dropWhile_eq_nil_iff]
    intro x hx
    exact List.all_eq_true.mp h x hx
  rw [h1]
  rfl

theorem fetchConversations_none_eq (now : Nat) (out : ListOutcome) (s : ChatState) :
    fetchConversations none now out s = (s, []) := rfl

theorem fetchConversations_fst_inputText (sess : Option String) (now : Nat)
    (out : ListOutcome) (s : ChatState) :
    (fetchConversations sess now out s).1.inputText = s.inputText := by
  cases sess <;> cases out <;> rfl

theorem fetchConversations_fst_cur (sess : Option String) (now : Nat)
    (out : ListOutcome) (s : ChatState) :
    (fetchConversations sess now out s).1.currentConversationId = s.currentConversationId := by
  cases sess <;> cases out <;> rfl

theorem fetchConversations_some_calls (tok : String) (now : Nat)
    (out : ListOutcome) (s : ChatState) :
    (fetchConversations (some tok) now out s).2
      = [fetchWithTimeout Endpoint.conversations FETCH_TIMEOUT] := by
  cases out <;> rfl

theorem fetchConversations_success_msgs (tok : String) (now : Nat)
    (convs : List Conversation) (s : ChatState) :
    (fetchConversations (some tok) now (.success convs) s).1.messages = s.messages := rfl

theorem fetchConversations_success_convs (tok : String) (now : Nat)
    (convs : List Conversation) (s : ChatState) :
    (fetchConversations (some tok) now (.success convs) s).1.conversations = convs := by
  show convs.map (fun (c : Conversation) => ({ id := c.id, title := c.title } : Conversation)) = convs
  exact List.map_id' convs

-- final isLoading reductions without case analysis
theorem send_final_isLoading (tok : String) (now : Nat) (so : SendOutcome)
    (lo : ListOutcome) (s : ChatState) (hblank : jsTrim s.inputText ≠ "") :
    (handleSendMessage (some tok) now so lo s).1.isLoading = false := by
  simp only [handleSendMessage, if_neg hblank]

theorem load_final_isLoading (cid : String) (tok : String) (now : Nat)
    (lo : LoadOutcome) (s : ChatState) :
    (loadConversation cid (some tok) now lo s).1.isLoading = false := rfl

theorem delete_final_isLoading (cid : String) (tok : String) (now : Nat)
    (dout : DeleteOutcome) (lo : ListOutcome) (s : ChatState) :
    (handleDeleteConversation cid (some tok) now dout lo s).1.isLoading = false := rfl

theorem timeout_ne_server (status : Nat) (body : String) :
    timeoutErrorText ≠ serverErrorText status body := by
  intro h
  have h2 := congrArg (fun t : String => t.data.head?) h
  simp only [timeoutErrorText, serverErrorText, String.data_append] at h2
  simp at h2

def SendOutcome.isNetworkFailure : SendOutcome → Bool
  | .fetchError _ => true
  | .httpError _ _ => true
  | .success _ => false

def DeleteOutcome.isNetworkFailure : DeleteOutcome → Bool
  | .fetchError _ => true
  | .httpError _ _ => true
  | .success => false

theorem handleSendMessage_some (tok : String) (now : Nat) (out : SendOutcome)
    (lo : ListOutcome) (s : ChatState) (hblank : jsTrim s.inputText ≠ "") :
    handleSendMessage (some tok) now out lo s
      = ({ (sendComplete (some tok) now out lo s.currentConversationId (sendDispatch now s)).1
            with isLoading := false },
         fetchWithTimeout
             (Endpoint.chat (if truthyStr s.currentConversationId then s.currentConversationId else none))
             FETCH_TIMEOUT
           :: (sendComplete (some tok) now out lo s.currentConversationId (sendDispatch now s)).2) := by
  simp only [handleSendMessage, if_neg hblank]

theorem sendComplete_fail (sess : Option String) (now : Nat) (out : SendOutcome)
    (lo : ListOutcome) (cur : Option String) (s1 : ChatState)
    (h : out.isNetworkFailure = true) :
    sendComplete sess now out lo cur s1
      = ({ s1 with messages := s1.messages ++ [sendErrorMsg now] }, []) := by
  cases out with
  | fetchError m => rfl
  | httpError st b => rfl
  | success d => simp [SendOutcome.isNetworkFailure] at h

theorem sendComplete_fst_inputText (sess : Option String) (now : Nat) (out : SendOutcome)
    (lo : ListOutcome) (cur : Option String) (s1 : ChatState) :
    (sendComplete sess now out lo cur s1).1.inputText = s1.inputText := by
  cases out with
  | fetchError m => rfl
  | httpError st b => rfl
  | success data =>
    cases data with
    | none => rfl
    | some d =>
      obtain ⟨cid, resp⟩ := d
      cases resp with
      | none => rfl
      | some r =>
        simp only [sendComplete]
        split
        · split
          · split
            · rw [fetchConversations_fst_inputText]
            · rfl
          · rfl
        · rfl

theorem sendComplete_calls (sess : Option String) (now : Nat) (out : SendOutcome)
    (lo : ListOutcome) (cur : Option String) (s1 : ChatState) :
    ∀ c ∈ (sendComplete sess now out lo cur s1).2,
      c = fetchWithTimeout Endpoint.conversations FETCH_TIMEOUT := by
  cases out with
  | fetchError m => intro c hc; simp [sendComplete] at hc
  | httpError st b => intro c hc; simp [sendComplete] at hc
  | success data =>
    cases data with
    | none => intro c hc; simp [sendComplete] at hc
    | some d =>
      obtain ⟨cid, resp⟩ := d
      cases resp with
      | none => intro c hc; simp [sendComplete] at hc
      | some r =>
        intro c hc
        simp only [sendComplete] at hc
        split at hc
        · split at hc
          · split at hc
            · cases sess with
              | none => simp [fetchConversations] at hc
              | some tok =>
                rw [fetchConversations_some_calls] at hc
                simpa using hc
            · simp at hc
          · simp at hc
        · simp at hc

theorem sendComplete_success_new (sess : Option String) (now : Nat) (lo : ListOutcome)
    (s1 : ChatState) (r : BotResponse) (convId : String)
    (hcont : truthyStr r.content = true) (hconv : convId ≠ "") :
    sendComplete sess now (.success (some { conversation_id := some convId, response := some r }))
        lo none s1
      = fetchConversations sess now lo
          { s1 with messages := s1.messages ++ [botMsgOfResponse now r]
                  , currentConversationId := some convId } := by
  have h1 : (truthyStr r.content && truthyStr (some convId)) = true := by
    rw [hcont]
    simp [truthyStr, hconv]
  have h2 : truthyStr (none : Option String) = false := rfl
  simp only [sendComplete]
  rw [if_pos h1, if_pos (Or.inl h2), if_pos h2]

theorem sendComplete_success_echo (sess : Option String) (now : Nat) (lo : ListOutcome)
    (s1 : ChatState) (r : BotResponse) (convId : String)
    (hcont : truthyStr r.content = true) (hconv : convId ≠ "") :
    sendComplete sess now (.success (some { conversation_id := some convId, response := some r }))
        lo (some convId) s1
      = ({ s1 with messages := s1.messages ++ [botMsgOfResponse now r] }, []) := by
  have h1 : (truthyStr r.content && truthyStr (some convId)) = true := by
    rw [hcont]
    simp [truthyStr, hconv]
  have h2 : ¬(truthyStr (some convId) = false ∨ (some convId : Option String) ≠ some convId) := by
    intro h
    rcases h with ha | hb
    · simp [truthyStr] at ha
      exact hconv ha
    · exact hb rfl
  simp only [sendComplete]
  rw [if_pos h1, if_neg h2]

theorem loadConversation_some_calls (cid : String) (tok : String) (now : Nat)
    (lo : LoadOutcome) (s : ChatState) :
    (loadConversation cid (some tok) now lo s).2
      = [fetchNoTimeout (Endpoint.conversationMessages cid)] := rfl

theorem delete_calls (cid : String) (tok : String) (now : Nat) (dout : DeleteOutcome)
    (lo : ListOutcome) (s : ChatState) :
    ∀ c ∈ (handleDeleteConversation cid (some tok) now dout lo s).2,
      c = fetchNoTimeout (Endpoint.conversationDelete cid)
      ∨ c = fetchWithTimeout Endpoint.conversations FETCH_TIMEOUT := by
  intro c hc
  cases dout with
  | fetchError m =>
    simp only [handleDeleteConversation] at hc
    split at hc
    · simp at hc
      exact Or.inl hc
    · simp at hc
      exact Or.inl hc
  | httpError st b =>
    simp only [handleDeleteConversation] at hc
    split at hc
    · simp at hc
      exact Or.inl hc
    · simp at hc
      exact Or.inl hc
  | success =>
    simp only [handleDeleteConversation] at hc
    split at hc
    · rw [fetchConversations_some_calls] at hc
      simp at hc
      rcases hc with h | h
      · exact Or.inl h
      · exact Or.inr h
    · rw [fetchConversations_some_calls] at hc
      simp at hc
      rcases hc with h | h
      · exact Or.inl h
      · exact Or.inr h

theorem handleDeleteConversation_success_current (cid : String) (tok : String) (now : Nat)
    (lo : ListOutcome) (s : ChatState) (hc : s.currentConversationId = some cid) :
    handleDeleteConversation cid (some tok) now .success lo s
      = ({ handleNewChat (fetchConversations (some tok) now lo (deleteDispatch s)).1
            with isLoading := false },
         fetchNoTimeout (Endpoint.conversationDelete cid)
           :: (fetchConversations (some tok) now lo (deleteDispatch s)).2) := by
  simp [handleDeleteConversation, hc]

theorem handleDeleteConversation_success_other (cid : String) (tok : String) (now : Nat)
    (lo : ListOutcome) (s : ChatState) (hc : ¬ s.currentConversationId = some cid) :
    handleDeleteConversation cid (some tok) now .success lo s
      = ({ (fetchConversations (some tok) now lo (deleteDispatch s)).1
            with isLoading := false },
         fetchNoTimeout (Endpoint.conversationDelete cid)
           :: (fetchConversations (some tok) now lo (deleteDispatch s)).2) := by
  simp [handleDeleteConversation, hc]

theorem sendComplete_malformed (sess : Option String) (now : Nat) (lo : ListOutcome)
    (cur : Option String) (s1 : ChatState) (data : Option ChatData)
    (hbad : chatGuard data = false) :
    sendComplete sess now (.success data) lo cur s1
      = ({ s1 with messages := s1.messages ++ [formatErrorMsg now] }, []) := by
  cases data with
  | none => rfl
  | some d =>
    obtain ⟨cidOpt, resp⟩ := d
    cases resp with
    | none => rfl
    | some r =>
      simp only [chatGuard] at hbad
      simp only [sendComplete]
      rw [if_neg]
      simp [hbad]

/-! Claim theorems, witnesses and counterexamples. -/

/-- C1: for a successful send from the unidentified state, the local
identifier becomes the server-returned one and exactly one conversation
list refresh is triggered; for a successful send whose response echoes the
already-known identifier, the identifier is unchanged and no refresh is
triggered. -/
theorem c1_send_identifier_reconciliation (s : ChatState) (tok : String) (now : Nat)
    (convId content : String) (botId createdAt : Option String) (listOut : ListOutcome)
    (hblank : jsTrim s.inputText ≠ "") (hconv : convId ≠ "") (hcont : content ≠ "") :
    (s.currentConversationId = none →
      (handleSendMessage (some tok) now
          (.success (some { conversation_id := some convId
                          , response := some { id := botId, content := some content
                                             , created_at := createdAt } }))
          listOut s).1.currentConversationId = some convId
      ∧ refreshCount (handleSendMessage (some tok) now
          (.success (some { conversation_id := some convId
                          , response := some { id := botId, content := some content
                                             , created_at := createdAt } }))
          listOut s).2 = 1)
  ∧ (s.currentConversationId = some convId →
      (handleSendMessage (some tok) now
          (.success (some { conversation_id := some convId
                          , response := some { id := botId, content := some content
                                             , created_at := createdAt } }))
          listOut s).1.currentConversationId = some convId
      ∧ refreshCount (handleSendMessage (some tok) now
          (.success (some { conversation_id := some convId
                          , response := some { id := botId, content := some content
                                             , created_at := createdAt } }))
          listOut s).2 = 0) := by
  have hcont' : truthyStr (some content) = true := by simp [truthyStr, hcont]
  constructor
  · intro hcur
    rw [handleSendMessage_some _ _ _ _ _ hblank, hcur,
        sendComplete_success_new _ _ _ _ _ _ hcont' hconv]
    refine ⟨?_, ?_⟩
    · show (fetchConversations (some tok) now listOut _).1.currentConversationId = some convId
      rw [fetchConversations_fst_cur]
    · show refreshCount (_ :: (fetchConversations (some tok) now listOut _).2) = 1
      rw [fetchConversations_some_calls]
      decide
  · intro hcur
    rw [handleSendMessage_some _ _ _ _ _ hblank, hcur,
        sendComplete_success_echo _ _ _ _ _ _ hcont' hconv]
    refine ⟨?_, ?_⟩
    · show s.currentConversationId = some convId
      exact hcur
    · simp [refreshCount, truthyStr, hconv, fetchWithTimeout]

/-- C1 witness: a concrete successful send from the unidentified state. -/
theorem c1_send_identifier_reconciliation_witness :
    jsTrim initialState.inputText ≠ ""
  ∧ (handleSendMessage (some "tok") 0
        (.success (some { conversation_id := some "c1"
                        , response := some { id := some "m1", content := some "hi there"
                                           , created_at := none } }))
        (.success [{ id := "c1", title := "t" }]) initialState).1.currentConversationId
      = some "c1"
  ∧ refreshCount (handleSendMessage (some "tok") 0
        (.success (some { conversation_id := some "c1"
                        , response := some { id := some "m1", content := some "hi there"
                                           , created_at := none } }))
        (.success [{ id := "c1", title := "t" }]) initialState).2 = 1 := by
  have h := c1_send_identifier_reconciliation initialState "tok" 0 "c1" "hi there" (some "m1")
    none (.success [{ id := "c1", title := "t" }]) (by decide) (by decide) (by decide)
  exact ⟨by decide, (h.1 rfl).1, (h.1 rfl).2⟩

/-- C2 counterexample: a load-conversation call whose network round trip
fails nevertheless moves the current conversation identifier from the
unidentified state to the requested identifier. -/
theorem c2_failed_call_counterexample :
    initialState.currentConversationId = none
  ∧ (loadConversation "c9" (some "tok") 0 (.fetchError "network down")
        initialState).1.currentConversationId = some "c9" := by
  decide

/-- C2 amended: failed send and delete calls leave the conversation
identity unchanged, but load-conversation adopts the requested identifier
before the fetch, regardless of the outcome. -/
theorem c2_failure_state_transitions (s : ChatState) (tok : String) (now : Nat)
    (cidD cidL : String)
    (so : SendOutcome) (dout : DeleteOutcome) (lo : LoadOutcome) (listOut : ListOutcome)
    (hso : so.isNetworkFailure = true) (hdo : dout.isNetworkFailure = true) :
    (handleSendMessage (some tok) now so listOut s).1.currentConversationId
        = s.currentConversationId
  ∧ (handleDeleteConversation cidD (some tok) now dout listOut s).1.currentConversationId
        = s.currentConversationId
  ∧ (loadConversation cidL (some tok) now lo s).1.currentConversationId = some cidL := by
  refine ⟨?_, ?_, ?_⟩
  · by_cases hb : jsTrim s.inputText = ""
    · simp [handleSendMessage, hb]
    · rw [handleSendMessage_some _ _ _ _ _ hb, sendComplete_fail _ _ _ _ _ _ hso]
      rfl
  · cases dout with
    | fetchError m =>
      simp only [handleDeleteConversation]
      split
      · rfl
      · rfl
    | httpError st b =>
      simp only [handleDeleteConversation]
      split
      · rfl
      · rfl
    | success => simp [DeleteOutcome.isNetworkFailure] at hdo
  · cases lo with
    | fetchError m =>
      simp only [loadConversation]
      split
      · rfl
      · rfl
    | httpError st b =>
      simp only [loadConversation]
      split
      · rfl
      · rfl
    | success data =>
      cases data with
      | none => rfl
      | some d =>
        obtain ⟨msgs⟩ := d
        cases msgs with
        | none => rfl
        | some l => rfl

/-- C2 witness: concrete failing send and delete calls, and a concrete
load call, from an identified state. -/
theorem c2_failure_state_transitions_witness :
    (handleSendMessage (some "tok") 3 (.fetchError "down") (.success [])
        { initialState with currentConversationId := some "c0" }).1.currentConversationId
      = some "c0"
  ∧ (handleDeleteConversation "c5" (some "tok") 3 (.httpError 500 "x") (.success [])
        { initialState with currentConversationId := some "c0" }).1.currentConversationId
      = some "c0"
  ∧ (loadConversation "c9" (some "tok") 3 (.fetchError "down")
        { initialState with currentConversationId := some "c0" }).1.currentConversationId
      = some "c9" :=
by
  exact c2_failure_state_transitions
    { initialState with currentConversationId := some "c0" } "tok" 3 "c5" "c9"
    (.fetchError "down") (.httpError 500 "x") (.fetchError "down") (.success [])
    (by decide) (by decide)

/-- C3 counterexample: the load-conversation and delete-conversation
calls are issued by plain fetch with no timeout wrapper at all. -/
theorem c3_timeout_counterexample :
    (loadConversation "c1" (some "tok") 0 (.success (some { messages := some [] }))
        initialState).2
      = [{ endpoint := Endpoint.conversationMessages "c1", timeoutMs := none }]
  ∧ (handleDeleteConversation "c1" (some "tok") 0 .success (.success []) initialState).2
      = [{ endpoint := Endpoint.conversationDelete "c1", timeoutMs := none },
         { endpoint := Endpoint.conversations, timeoutMs := some 30000 }] := by
  decide

/-- C3 amended: the list-conversations and send-message calls are wrapped
with the fixed 30-second timeout, whose expiry rejects with an error text
distinct from every server-returned error; the load-conversation and
delete-conversation calls are issued with no timeout wrapper. -/
theorem c3_timeout_wrapping (sess : Option String) (now : Nat) (cidL cidD : String)
    (so : SendOutcome) (lo : LoadOutcome) (dout : DeleteOutcome)
    (l1 l2 l3 : ListOutcome) (s : ChatState) :
    (∀ c ∈ (fetchConversations sess now l1 s).2, c.timeoutMs = expectedTimeout c.endpoint)
  ∧ (∀ c ∈ (handleSendMessage sess now so l2 s).2, c.timeoutMs = expectedTimeout c.endpoint)
  ∧ (∀ c ∈ (loadConversation cidL sess now lo s).2, c.timeoutMs = expectedTimeout c.endpoint)
  ∧ (∀ c ∈ (handleDeleteConversation cidD sess now dout l3 s).2,
        c.timeoutMs = expectedTimeout c.endpoint)
  ∧ (∀ status body, timeoutErrorText ≠ serverErrorText status body) := by
  refine ⟨?_, ?_, ?_, ?_, fun status body => timeout_ne_server status body⟩
  · intro c hc
    cases sess with
    | none => simp [fetchConversations] at hc
    | some tok =>
      rw [fetchConversations_some_calls] at hc
      simp at hc
      subst hc
      rfl
  · intro c hc
    by_cases hb : jsTrim s.inputText = ""
    · simp [handleSendMessage, hb] at hc
    · cases sess with
      | none => simp [handleSendMessage, hb] at hc
      | some tok =>
        rw [handleSendMessage_some _ _ _ _ _ hb] at hc
        rcases List.mem_cons.mp hc with h | h
        · subst h
          rfl
        · have h2 := sendComplete_calls _ _ _ _ _ _ c h
          subst h2
          rfl
  · intro c hc
    cases sess with
    | none => simp [loadConversation] at hc
    | some tok =>
      rw [loadConversation_some_calls] at hc
      simp at hc
      subst hc
      rfl
  · intro c hc
    cases sess with
    | none => simp [handleDeleteConversation] at hc
    | some tok =>
      rcases delete_calls _ _ _ _ _ _ c hc with h | h
      · subst h
        rfl
      · subst h
        rfl

/-- C3 witness: the concrete load call runs with no timeout while the
timeout error text differs from a concrete server error text. -/
theorem c3_timeout_wrapping_witness :
    ((fetchNoTimeout (Endpoint.conversationMessages "c1")).timeoutMs
        = expectedTimeout (fetchNoTimeout (Endpoint.conversationMessages "c1")).endpoint)
  ∧ timeoutErrorText ≠ serverErrorText 500 "oops" := by
  have h := c3_timeout_wrapping (some "tok") 0 "c1" "c2" (.httpError 500 "x")
    (.fetchError "x") .success (.success []) (.success []) (.success []) initialState
  refine ⟨h.2.2.1 (fetchNoTimeout (Endpoint.conversationMessages "c1")) ?_,
    h.2.2.2.2 500 "oops"⟩
  rw [loadConversation_some_calls]
  exact List.mem_singleton.mpr rfl

/-- C7: every successful delete triggers exactly one conversation-list
refresh; deleting the currently open conversation resets the local state
to the unidentified/empty new-conversation state, while deleting another
conversation leaves the current identifier and (for a successful refresh)
the message list untouched and replaces the conversation list. -/
theorem c7_delete_success (s : ChatState) (tok : String) (now : Nat) (cid : String)
    (listOut : ListOutcome) (convs : List Conversation) :
    refreshCount (handleDeleteConversation cid (some tok) now .success listOut s).2 = 1
  ∧ (s.currentConversationId = some cid →
       (handleDeleteConversation cid (some tok) now .success listOut s).1.currentConversationId
           = none
     ∧ (handleDeleteConversation cid (some tok) now .success listOut s).1.messages = [])
  ∧ (s.currentConversationId ≠ some cid →
       (handleDeleteConversation cid (some tok) now .success listOut s).1.currentConversationId
           = s.currentConversationId
     ∧ (listOut = ListOutcome.success convs →
          (handleDeleteConversation cid (some tok) now .success listOut s).1.messages
              = s.messages
        ∧ (handleDeleteConversation cid (some tok) now .success listOut s).1.conversations
              = convs)) := by
  refine ⟨?_, ?_, ?_⟩
  · by_cases hc : s.currentConversationId = some cid
    · rw [handleDeleteConversation_success_current _ _ _ _ _ hc,
          fetchConversations_some_calls]
      simp [refreshCount, fetchNoTimeout, fetchWithTimeout]
    · rw [handleDeleteConversation_success_other _ _ _ _ _ hc,
          fetchConversations_some_calls]
      simp [refreshCount, fetchNoTimeout, fetchWithTimeout]
  · intro hc
    rw [handleDeleteConversation_success_current _ _ _ _ _ hc]
    exact ⟨rfl, rfl⟩
  · intro hc
    rw [handleDeleteConversation_success_other _ _ _ _ _ hc]
    refine ⟨?_, ?_⟩
    · show (fetchConversations (some tok) now listOut (deleteDispatch s)).1.currentConversationId
          = s.currentConversationId
      rw [fetchConversations_fst_cur]
      rfl
    · intro hl
      subst hl
      refine ⟨?_, ?_⟩
      · show (fetchConversations (some tok) now (.success convs)
            (deleteDispatch s)).1.messages = s.messages
        rw [fetchConversations_success_msgs]
        rfl
      · show (fetchConversations (some tok) now (.success convs)
            (deleteDispatch s)).1.conversations = convs
        rw [fetchConversations_success_convs]

/-- C7 witness: deleting the currently open conversation from a concrete
identified state. -/
theorem c7_delete_success_witness :
    refreshCount (handleDeleteConversation "c1" (some "tok") 0 .success (.success [])
        { initialState with currentConversationId := some "c1" }).2 = 1
  ∧ (handleDeleteConversation "c1" (some "tok") 0 .success (.success [])
        { initialState with currentConversationId := some "c1" }).1.currentConversationId
      = none
  ∧ (handleDeleteConversation "c1" (some "tok") 0 .success (.success [])
        { initialState with currentConversationId := some "c1" }).1.messages = [] := by
  have h := c7_delete_success { initialState with currentConversationId := some "c1" }
    "tok" 0 "c1" (.success []) []
  exact ⟨h.1, (h.2.1 rfl).1, (h.2.1 rfl).2⟩

/-- C4 counterexample: a 2xx chat response missing only the bot message
identifier is not treated as a failure: the bot message is appended (with
an absent identifier) and no synthetic error message is produced. -/
theorem c4_malformed_counterexample :
    (handleSendMessage (some "tok") 0
        (.success (some { conversation_id := some "c1"
                        , response := some { id := none, content := some "hi there"
                                           , created_at := none } }))
        (.success []) { initialState with currentConversationId := some "c1" }).1.messages
      = [userMsg 0 "hello",
         { id := none, text := "hi there", sender := Sender.bot, timestamp := "0" }] := by
  decide

/-- C4 amended: a 2xx chat response that fails the source's field guard
(null body, missing bot response object, missing/empty bot content, or
missing/empty conversation identifier) is treated as a failure: exactly
one synthetic error message is appended after the optimistic user message,
no bot message is appended, and neither the identifier nor the
conversation list changes.  A missing bot message identifier alone is not
checked by the guard. -/
theorem c4_malformed_response (s : ChatState) (tok : String) (now : Nat)
    (data : Option ChatData) (listOut : ListOutcome)
    (hblank : jsTrim s.inputText ≠ "") (hbad : chatGuard data = false) :
    (handleSendMessage (some tok) now (.success data) listOut s).1.messages
      = s.messages ++ [userMsg now s.inputText, formatErrorMsg now]
  ∧ (handleSendMessage (some tok) now (.success data) listOut s).1.currentConversationId
      = s.currentConversationId
  ∧ refreshCount (handleSendMessage (some tok) now (.success data) listOut s).2 = 0 := by
  rw [handleSendMessage_some _ _ _ _ _ hblank, sendComplete_malformed _ _ _ _ _ _ hbad]
  refine ⟨?_, rfl, ?_⟩
  · show (s.messages ++ [userMsg now s.inputText]) ++ [formatErrorMsg now]
        = s.messages ++ [userMsg now s.inputText, formatErrorMsg now]
    simp
  · simp [refreshCount, fetchWithTimeout]

/-- C4 witness: a concrete 2xx response with a null body. -/
theorem c4_malformed_response_witness :
    (handleSendMessage (some "tok") 0 (.success none) (.success []) initialState).1.messages
      = [userMsg 0 "hello", formatErrorMsg 0]
  ∧ (handleSendMessage (some "tok") 0 (.success none) (.success [])
        initialState).1.currentConversationId = none
  ∧ refreshCount (handleSendMessage (some "tok") 0 (.success none) (.success [])
        initialState).2 = 0 := by
  have h := c4_malformed_response initialState "tok" 0 none (.success [])
    (by decide) (by decide)
  exact ⟨h.1, h.2.1, h.2.2⟩

/-- C5 counterexample: on a non-2xx send response, the appended synthetic
message has a fixed generic text containing no digit at all, so it does
not describe the HTTP status; the optimistic user message is retained. -/
theorem c5_status_text_counterexample :
    (handleSendMessage (some "tok") 0 (.httpError 500 "boom") (.success [])
        initialState).1.messages
      = [userMsg 0 "hello", sendErrorMsg 0]
  ∧ sendErrorText.data.all (fun c => !c.isDigit) = true := by
  decide

/-- C5 amended: on any non-2xx send response, exactly one synthetic
bot-authored error message with a fixed generic text is appended (the
status appears only in console diagnostics), and the optimistically
appended user message is not removed. -/
theorem c5_non2xx_send (s : ChatState) (tok : String) (now : Nat)
    (status : Nat) (body : String) (listOut : ListOutcome)
    (hblank : jsTrim s.inputText ≠ "") :
    (handleSendMessage (some tok) now (.httpError status body) listOut s).1.messages
      = s.messages ++ [userMsg now s.inputText, sendErrorMsg now]
  ∧ (sendErrorMsg now).sender = Sender.bot
  ∧ (sendErrorMsg now).text = sendErrorText := by
  rw [handleSendMessage_some _ _ _ _ _ hblank,
      sendComplete_fail _ _ _ _ _ _ (by rfl)]
  refine ⟨?_, rfl, rfl⟩
  show (s.messages ++ [userMsg now s.inputText]) ++ [sendErrorMsg now]
      = s.messages ++ [userMsg now s.inputText, sendErrorMsg now]
  simp

/-- C5 witness: a concrete non-2xx send from a concrete state. -/
theorem c5_non2xx_send_witness :
    (handleSendMessage (some "tok") 7 (.httpError 404 "nope") (.fetchError "x")
        { initialState with currentConversationId := some "c1" }).1.messages
      = [userMsg 7 "hello", sendErrorMsg 7]
  ∧ (sendErrorMsg 7).sender = Sender.bot
  ∧ (sendErrorMsg 7).text = sendErrorText := by
  have h := c5_non2xx_send { initialState with currentConversationId := some "c1" }
    "tok" 7 404 "nope" (.fetchError "x") (by decide)
  exact h

/-- C6 counterexample: with no credential, list-conversations performs
zero network calls but leaves the previously held non-empty conversation
list in place, so it does not yield an empty result, and it surfaces no
failure of any kind (the state is wholly unchanged). -/
theorem c6_unauthenticated_counterexample :
    fetchConversations none 0 (.success [])
        { initialState with conversations := [{ id := "c1", title := "First chat" }] }
      = ({ initialState with conversations := [{ id := "c1", title := "First chat" }] }, [])
  ∧ ({ initialState with
        conversations := [{ id := "c1", title := "First chat" }] } : ChatState).conversations
      ≠ [] := by
  decide

/-- C6 amended: with no credential present, list-conversations performs
zero network calls and returns immediately with the whole state unchanged
(no empty result is produced and no error classification is surfaced). -/
theorem c6_unauthenticated_list (s : ChatState) (now : Nat) (out : ListOutcome) :
    fetchConversations none now out s = (s, []) := rfl

/-- C8: a send invoked while the input consists only of whitespace (or is
empty) performs no network call and changes nothing: no message-list or
conversation-list entries are added. -/
theorem c8_whitespace_send (s : ChatState) (sess : Option String) (now : Nat)
    (so : SendOutcome) (listOut : ListOutcome)
    (h : s.inputText.data.all Char.isWhitespace = true) :
    handleSendMessage sess now so listOut s = (s, []) := by
  simp [handleSendMessage, jsTrim_eq_empty s.inputText h]

/-- C8 witness: a concrete whitespace-only input. -/
theorem c8_whitespace_send_witness :
    ("  \t ").data.all Char.isWhitespace = true
  ∧ handleSendMessage (some "tok") 0 (.httpError 500 "x") (.success [])
      { initialState with inputText := "  \t " }
    = ({ initialState with inputText := "  \t " }, []) :=
  ⟨by decide,
   c8_whitespace_send { initialState with inputText := "  \t " } (some "tok") 0
     (.httpError 500 "x") (.success []) (by decide)⟩

/-- C9: once the send, load or delete operation is dispatched (its guards
passed), the in-flight loading flag is true in the dispatched state and is
false again in the final state on every outcome. -/
theorem c9_loading_flag (s : ChatState) (tok : String) (now : Nat) (cid : String)
    (so : SendOutcome) (lo : LoadOutcome) (dout : DeleteOutcome) (listOut : ListOutcome)
    (hblank : jsTrim s.inputText ≠ "") :
    (sendDispatch now s).isLoading = true
  ∧ (handleSendMessage (some tok) now so listOut s).1.isLoading = false
  ∧ (loadDispatch cid s).isLoading = true
  ∧ (loadConversation cid (some tok) now lo s).1.isLoading = false
  ∧ (deleteDispatch s).isLoading = true
  ∧ (handleDeleteConversation cid (some tok) now dout listOut s).1.isLoading = false := by
  exact ⟨rfl, send_final_isLoading _ _ _ _ _ hblank, rfl,
    load_final_isLoading _ _ _ _ _, rfl, delete_final_isLoading _ _ _ _ _ _⟩

/-- C9 witness: concrete dispatches resolving with failures. -/
theorem c9_loading_flag_witness :
    (sendDispatch 0 initialState).isLoading = true
  ∧ (handleSendMessage (some "tok") 0 (.fetchError "down") (.success [])
        initialState).1.isLoading = false
  ∧ (loadDispatch "c1" initialState).isLoading = true
  ∧ (loadConversation "c1" (some "tok") 0 (.httpError 500 "x")
        initialState).1.isLoading = false
  ∧ (deleteDispatch initialState).isLoading = true
  ∧ (handleDeleteConversation "c1" (some "tok") 0 (.fetchError "down") (.success [])
        initialState).1.isLoading = false := by
  exact c9_loading_flag initialState "tok" 0 "c1" (.fetchError "down") (.httpError 500 "x")
    (.fetchError "down") (.success []) (by decide)

/-- C10: with non-blank text and a credential, the composed input is
cleared by the dispatch itself, immediately after the optimistic append
and before any outcome is known, and remains cleared on every outcome;
with non-blank text and no credential, only the authentication-error
message is appended and the input text is left unchanged. -/
theorem c10_input_clearing (s : ChatState) (tok : String) (now : Nat)
    (so : SendOutcome) (listOut : ListOutcome)
    (hblank : jsTrim s.inputText ≠ "") :
    (sendDispatch now s).messages = s.messages ++ [userMsg now s.inputText]
  ∧ (sendDispatch now s).inputText = ""
  ∧ (handleSendMessage (some tok) now so listOut s).1.inputText = ""
  ∧ handleSendMessage none now so listOut s
      = ({ s with messages := s.messages ++ [authErrorMsg now] }, []) := by
  refine ⟨rfl, rfl, ?_, ?_⟩
  · rw [handleSendMessage_some _ _ _ _ _ hblank]
    show (sendComplete (some tok) now so listOut s.currentConversationId
        (sendDispatch now s)).1.inputText = ""
    rw [sendComplete_fst_inputText]
    rfl
  · simp only [handleSendMessage, if_neg hblank]

/-- C10 witness: a concrete failing send and a concrete send without a
session. -/
theorem c10_input_clearing_witness :
    (sendDispatch 2 initialState).messages = [userMsg 2 "hello"]
  ∧ (sendDispatch 2 initialState).inputText = ""
  ∧ (handleSendMessage (some "tok") 2 (.fetchError "down") (.success [])
        initialState).1.inputText = ""
  ∧ handleSendMessage none 2 (.fetchError "down") (.success []) initialState
      = ({ initialState with messages := [authErrorMsg 2] }, []) := by
  exact c10_input_clearing initialState "tok" 2 (.fetchError "down") (.success [])
    (by decide)

end ChatBot
